import Mathlib

/-!
Verification of the production-project backend (employees, departments,
service orders).  The controllers in `src/controllers` are shallowly
embedded: each controller becomes a pure Lean function from a database
state and a request to an HTTP status, a resulting database state, and
the ordered trace of statements it issued on its connection.  A MySQL
transaction on a single connection is modelled by returning the original
database whenever the controller rolls back, and the mutated database
when it commits.
-/

namespace Prod2

/-! ## Database rows and state

Row types carry the columns that the controllers read or write. -/

structure ServiceOrderRow where
  id : Nat
  os_number : String
  deriving Repr, DecidableEq

structure OsDepartmentRow where
  id : Nat
  os_id : Nat
  department_id : Nat
  execution_start : String
  execution_end : String
  deriving Repr, DecidableEq

structure OsCollaboratorRow where
  os_department_id : Nat
  collaborator_id : Nat
  deriving Repr, DecidableEq

structure OsServiceDayRow where
  os_id : Nat
  day_of_week : Int
  deriving Repr, DecidableEq

structure EmployeeRow where
  id : Nat
  name : String
  username : String
  password : String
  deriving Repr, DecidableEq

structure DepartmentRow where
  id : Nat
  name : String
  production_order : Int
  deriving Repr, DecidableEq

structure EmployeeDepartmentRow where
  employee_id : Nat
  department_id : Nat
  deriving Repr, DecidableEq

/-- The relational state visible to the controllers.  `next_so_id` and
`next_osdept_id` model the AUTO_INCREMENT counters that produce
`insertId` for `service_orders` and `os_departments`. -/
structure DB where
  service_orders : List ServiceOrderRow
  os_departments : List OsDepartmentRow
  os_collaborators : List OsCollaboratorRow
  os_service_days : List OsServiceDayRow
  employees : List EmployeeRow
  departments : List DepartmentRow
  employee_departments : List EmployeeDepartmentRow
  next_so_id : Nat
  next_osdept_id : Nat
  deriving Repr, DecidableEq

/-! ## SQL operation trace

One constructor per SQL statement issued by the embedded controllers,
carrying the bound parameters; `Op.sql` recovers the SQL text string the
controller hands to `connection.query`. -/

inductive Op where
  | beginTx
  | commit
  | rollback
  | selectOsByNumber (os_number : String)
  | insertServiceOrder (os_number : String)
  | insertServiceDays (rows : List (Nat × Int))
  | insertOsDepartment (os_id department_id : Nat) (execution_start execution_end : String)
  | selectEmployeesIn (ids : List Nat)
  | insertOsCollaborators (rows : List (Nat × Nat))
  | selectDepartmentsIn (ids : List Nat)
  | insertScOsDepartments (rows : List (Nat × Nat × Int × Int × String))
  | selectScOsDepartmentsByOs (os_id : Nat)
  | updateServiceOrdersSet (keys values : List String) (id : Nat)
  | deleteOsDepartmentsByOs (os_id : Nat)
  | insertOsDepartmentPairs (rows : List (Nat × Nat))
  | selectOsById (id : Nat)
  | selectOsDepartmentIdsByOs (os_id : Nat)
  | deleteOsCollaboratorsIn (ids : List Nat)
  | deleteOsServiceDaysByOs (os_id : Nat)
  | deleteServiceOrderById (id : Nat)
  | selectEmpDeptByDept (department_id : Nat)
  | selectOsDeptByDept (department_id : Nat)
  | deleteDepartmentById (id : Nat)
  | updateEmployeesSet (keys values : List String) (id : Nat)
  | deleteEmployeeDepartmentsByEmp (employee_id : Nat)
  | insertEmployeeDepartments (rows : List (Nat × Nat))
  deriving Repr, DecidableEq

/-- The SQL text `updateEmployee` builds: the request-body keys are
concatenated into the statement, only the values go to parameters. -/
def updateEmployeeSetSQL (keys : List String) : String :=
  "UPDATE employees SET " ++
    String.intercalate ", " (keys.map (fun k => k ++ " = ?")) ++
    " WHERE id = ?"

/-- The SQL text of each traced operation, as handed to
`connection.query` in the source. -/
def Op.sql : Op → String
  | .beginTx => "START TRANSACTION"
  | .commit => "COMMIT"
  | .rollback => "ROLLBACK"
  | .selectOsByNumber _ => "SELECT id FROM service_orders WHERE os_number = ?"
  | .insertServiceOrder _ => "INSERT INTO service_orders (os_number) VALUES (?)"
  | .insertServiceDays _ => "INSERT INTO os_service_days (os_id, day_of_week) VALUES ?"
  | .insertOsDepartment _ _ _ _ =>
      "INSERT INTO os_departments (os_id, department_id, execution_start, execution_end) VALUES (?, ?, ?, ?)"
  | .selectEmployeesIn _ => "SELECT id FROM employees WHERE id IN (?)"
  | .insertOsCollaborators _ =>
      "INSERT INTO os_collaborators (os_department_id, collaborator_id) VALUES ?"
  | .selectDepartmentsIn _ => "SELECT id FROM departments WHERE id IN (?)"
  | .insertScOsDepartments _ =>
      "INSERT INTO os_departments (os_id, department_id, execution_time, collaborators_needed, scheduled_days) VALUES ?"
  | .selectScOsDepartmentsByOs _ => "SELECT * FROM os_departments WHERE os_id = ?"
  | .updateServiceOrdersSet _ _ _ => "UPDATE service_orders SET ? WHERE id = ?"
  | .deleteOsDepartmentsByOs _ => "DELETE FROM os_departments WHERE os_id = ?"
  | .insertOsDepartmentPairs _ =>
      "INSERT INTO os_departments (os_id, department_id) VALUES ?"
  | .selectOsById _ => "SELECT id FROM service_orders WHERE id = ?"
  | .selectOsDepartmentIdsByOs _ => "SELECT id FROM os_departments WHERE os_id = ?"
  | .deleteOsCollaboratorsIn _ => "DELETE FROM os_collaborators WHERE os_department_id IN (?)"
  | .deleteOsServiceDaysByOs _ => "DELETE FROM os_service_days WHERE os_id = ?"
  | .deleteServiceOrderById _ => "DELETE FROM service_orders WHERE id = ?"
  | .selectEmpDeptByDept _ => "SELECT * FROM employee_departments WHERE department_id = ? LIMIT 1"
  | .selectOsDeptByDept _ => "SELECT * FROM os_departments WHERE department_id = ? LIMIT 1"
  | .deleteDepartmentById _ => "DELETE FROM departments WHERE id = ?"
  | .updateEmployeesSet keys _ _ => updateEmployeeSetSQL keys
  | .deleteEmployeeDepartmentsByEmp _ => "DELETE FROM employee_departments WHERE employee_id = ?"
  | .insertEmployeeDepartments _ =>
      "INSERT INTO employee_departments (employee_id, department_id) VALUES ?"

/-! ## Time validation (`isValidTime`, os.controller.ts) -/

/-- `\d` of the JavaScript regex: an ASCII digit. -/
def isDigitChar (c : Char) : Bool := 48 ≤ c.toNat && c.toNat ≤ 57

/-- The anchored pattern `([01]\d|2[0-3]):([0-5]\d)` on the character
list of the candidate string. -/
def isValidTimeChars : List Char → Bool
  | [h1, h2, c, m1, m2] =>
    ((h1 == '0' || h1 == '1') && isDigitChar h2 ||
      (h1 == '2' && (48 ≤ h2.toNat && h2.toNat ≤ 51))) &&
    c == ':' &&
    (48 ≤ m1.toNat && m1.toNat ≤ 53) && isDigitChar m2
  | _ => false

/-- `isValidTime` from os.controller.ts:
tests `/^([01]\d|2[0-3]):([0-5]\d)$/` against the string. -/
def isValidTime (s : String) : Bool := isValidTimeChars s.data

/-- The specification of the execution-time format: exactly the strings
of the form `HH:MM` whose two-digit hour is 00–23 and two-digit minute
is 00–59, with no other characters.  (Digit values are `toNat - 48`.) -/
def timeSpec (s : String) : Prop :=
  ∃ h1 h2 m1 m2 : Char,
    s.data = [h1, h2, ':', m1, m2] ∧
    isDigitChar h1 = true ∧ isDigitChar h2 = true ∧
    isDigitChar m1 = true ∧ isDigitChar m2 = true ∧
    10 * (h1.toNat - 48) + (h2.toNat - 48) ≤ 23 ∧
    10 * (m1.toNat - 48) + (m2.toNat - 48) ≤ 59

/-! ## JS `[...new Set(xs)]`: dedup keeping first occurrences -/

def dedupFirstAux (seen : List Int) : List Int → List Int
  | [] => []
  | x :: xs =>
    if seen.contains x then dedupFirstAux seen xs
    else x :: dedupFirstAux (x :: seen) xs

/-- `[...new Set(xs)]`: the elements of `xs` in first-occurrence order. -/
def dedupFirst (l : List Int) : List Int := dedupFirstAux [] l

theorem mem_dedupFirstAux (seen l : List Int) (y : Int) :
    y ∈ dedupFirstAux seen l ↔ y ∈ l ∧ ¬ y ∈ seen := by
  induction l generalizing seen with
  | nil => simp [dedupFirstAux]
  | cons x xs ih =>
    rw [dedupFirstAux]
    split
    · rename_i hc
      rw [ih]
      simp only [List.mem_cons]
      constructor
      · rintro ⟨hy, hs⟩
        exact ⟨Or.inr hy, hs⟩
      · rintro ⟨hy | hy, hs⟩
        · subst hy
          exact absurd (by simpa using hc) hs
        · exact ⟨hy, hs⟩
    · rename_i hc
      simp only [List.mem_cons, ih]
      constructor
      · rintro (rfl | ⟨hy, hs⟩)
        · exact ⟨Or.inl rfl, by simpa using hc⟩
        · exact ⟨Or.inr hy, fun hseen => hs (Or.inr hseen)⟩
      · rintro ⟨rfl | hy, hs⟩
        · exact Or.inl rfl
        · by_cases hxy : y = x
          · exact Or.inl hxy
          · refine Or.inr ⟨hy, fun hmem => ?_⟩
            rcases hmem with h | h
            · exact hxy h
            · exact hs h

theorem dedupFirstAux_nodup (seen l : List Int) : (dedupFirstAux seen l).Nodup := by
  induction l generalizing seen with
  | nil => simp [dedupFirstAux]
  | cons x xs ih =>
    rw [dedupFirstAux]
    split
    · exact ih _
    · refine List.nodup_cons.mpr ⟨?_, ih _⟩
      intro hmem
      rw [mem_dedupFirstAux] at hmem
      exact hmem.2 (List.mem_cons_self x seen)

theorem dedupFirst_nodup (l : List Int) : (dedupFirst l).Nodup := dedupFirstAux_nodup [] l

theorem mem_dedupFirst (l : List Int) (y : Int) : y ∈ dedupFirst l ↔ y ∈ l := by
  rw [dedupFirst, mem_dedupFirstAux]
  simp

/-! ## os.controller.ts: createServiceOrder -/

/-- A department entry of the POST /service-orders body
(os.controller.ts request shape). -/
structure DeptReq where
  department_id : Nat
  execution_start : String
  execution_end : String
  collaborator_ids : List Nat
  deriving Repr, DecidableEq

/-- The POST /service-orders body.  `os_number = ""` models a missing or
empty `os_number` (both falsy); `none` models an absent field. -/
structure CreateOSReq where
  os_number : String
  service_days : Option (List Int)
  departments : Option (List DeptReq)
  deriving Repr, DecidableEq

/-- Outcome of a controller run: HTTP status, database after the request
(pre-transaction state when it rolled back), and the trace of statements
issued on the transaction connection. -/
structure ControllerOut where
  status : Nat
  db : DB
  trace : List Op
  deriving Repr, DecidableEq

/-- The department loop of `createServiceOrder` (os.controller.ts
lines 94–127): per department it validates the execution times, inserts
the `os_departments` row, and — only for a non-empty collaborator list —
checks the listed collaborators against `employees` and bulk-inserts the
`os_collaborators` rows.  `.error s` is a rollback with status `s`. -/
def processDepts (osId : Nat) : DB → List DeptReq → Except Nat DB × List Op
  | db, [] => (.ok db, [])
  | db, dept :: rest =>
    if ¬ (isValidTime dept.execution_start && isValidTime dept.execution_end) then
      (.error 400, [.rollback])
    else
      let deptId := db.next_osdept_id
      let db1 : DB :=
        { db with
          os_departments := db.os_departments ++
            [⟨deptId, osId, dept.department_id, dept.execution_start, dept.execution_end⟩],
          next_osdept_id := deptId + 1 }
      let insOp := Op.insertOsDepartment osId dept.department_id
        dept.execution_start dept.execution_end
      if dept.collaborator_ids.length > 0 then
        let existing := db1.employees.filter (fun e => dept.collaborator_ids.contains e.id)
        let selOp := Op.selectEmployeesIn dept.collaborator_ids
        if existing.length ≠ dept.collaborator_ids.length then
          (.error 400, [insOp, selOp, .rollback])
        else
          let db2 : DB :=
            { db1 with
              os_collaborators := db1.os_collaborators ++
                dept.collaborator_ids.map (fun c => ⟨deptId, c⟩) }
          let r := processDepts osId db2 rest
          (r.1, insOp :: selOp ::
            Op.insertOsCollaborators (dept.collaborator_ids.map (fun c => (deptId, c))) :: r.2)
      else
        let r := processDepts osId db1 rest
        (r.1, insOp :: r.2)

/-- `createServiceOrder` of os.controller.ts: body checks (os_number,
service_days present and within 0–6), then inside a transaction the
departments-nonempty check, the duplicate-os_number check, the parent
insert, the service-day bulk insert, and the department loop; a failed
validation rolls back, otherwise the transaction commits. -/
def createServiceOrder (db : DB) (req : CreateOSReq) : ControllerOut :=
  let days := req.service_days.getD []
  if req.os_number == "" || req.service_days.isNone || days.isEmpty then
    ⟨400, db, []⟩
  else if days.any (fun day => day < 0 || day > 6) then
    ⟨400, db, []⟩
  else
    let uniqueDays := dedupFirst days
    let deps := req.departments.getD []
    if req.departments.isNone || deps.isEmpty then
      ⟨400, db, [.beginTx, .rollback]⟩
    else
      let existingOS := db.service_orders.filter (fun so => so.os_number = req.os_number)
      if existingOS.length > 0 then
        ⟨409, db, [.beginTx, .selectOsByNumber req.os_number, .rollback]⟩
      else
        let osId := db.next_so_id
        let db1 : DB :=
          { db with
            service_orders := db.service_orders ++ [⟨osId, req.os_number⟩],
            next_so_id := osId + 1 }
        let db2 : DB :=
          { db1 with
            os_service_days := db1.os_service_days ++
              uniqueDays.map (fun d => ⟨osId, d⟩) }
        let pre : List Op :=
          [.beginTx, .selectOsByNumber req.os_number,
            .insertServiceOrder req.os_number,
            .insertServiceDays (uniqueDays.map (fun d => (osId, d)))]
        match processDepts osId db2 deps with
        | (.error s, t) => ⟨s, db, pre ++ t⟩
        | (.ok db3, t) => ⟨201, db3, pre ++ t ++ [.commit]⟩

/-! ## serviceOrders.controller.ts: createServiceOrder

This controller targets an `os_departments` schema with
`execution_time`, `collaborators_needed` and `scheduled_days` columns,
so it gets its own row and database types. -/

structure ScDeptReq where
  department_id : Nat
  execution_time : Int
  collaborators_needed : Int
  scheduled_days : String
  deriving Repr, DecidableEq

structure ScOsDepartmentRow where
  os_id : Nat
  department_id : Nat
  execution_time : Int
  collaborators_needed : Int
  scheduled_days : String
  deriving Repr, DecidableEq

structure ScDB where
  service_orders : List ServiceOrderRow
  os_departments : List ScOsDepartmentRow
  departments : List DepartmentRow
  next_so_id : Nat
  deriving Repr, DecidableEq

structure ScCreateReq where
  os_number : String
  departments : Option (List ScDeptReq)
  deriving Repr, DecidableEq

structure ScOut where
  status : Nat
  db : ScDB
  trace : List Op
  deriving Repr, DecidableEq

/-- `createServiceOrder` of serviceOrders.controller.ts: department
existence is validated before the parent insert; a duplicate `os_number`
surfaces as the `ER_DUP_ENTRY` error of the parent insert (unique
column), answered with 409 after the rollback; the response re-reads
`os_departments` on the same connection after the commit. -/
def scCreateServiceOrder (db : ScDB) (req : ScCreateReq) : ScOut :=
  if req.os_number == "" then ⟨400, db, []⟩
  else
    let deps := req.departments.getD []
    let deptIds := deps.map (fun d => d.department_id)
    let checkOps : List Op := if deps.isEmpty then [] else [.selectDepartmentsIn deptIds]
    let existingIds := (db.departments.filter (fun d => deptIds.contains d.id)).map (fun d => d.id)
    let invalidIds := deptIds.filter (fun i => !(existingIds.contains i))
    if ¬ deps.isEmpty ∧ ¬ invalidIds.isEmpty then
      ⟨400, db, [.beginTx] ++ checkOps ++ [.rollback]⟩
    else if db.service_orders.any (fun so => so.os_number == req.os_number) then
      ⟨409, db, [.beginTx] ++ checkOps ++ [.insertServiceOrder req.os_number, .rollback]⟩
    else
      let osId := db.next_so_id
      let db1 : ScDB :=
        { db with
          service_orders := db.service_orders ++ [⟨osId, req.os_number⟩],
          next_so_id := osId + 1 }
      if deps.isEmpty then
        ⟨201, db1, [.beginTx] ++ checkOps ++
          [.insertServiceOrder req.os_number, .commit, .selectScOsDepartmentsByOs osId]⟩
      else
        let rows := deps.map (fun d =>
          (osId, d.department_id, d.execution_time, d.collaborators_needed, d.scheduled_days))
        let db2 : ScDB :=
          { db1 with
            os_departments := db1.os_departments ++ deps.map (fun d =>
              ⟨osId, d.department_id, d.execution_time, d.collaborators_needed, d.scheduled_days⟩) }
        ⟨201, db2, [.beginTx] ++ checkOps ++
          [.insertServiceOrder req.os_number, .insertScOsDepartments rows,
            .commit, .selectScOsDepartmentsByOs osId]⟩

/-! ## serviceOrders.controller.ts: getServiceOrders query builder -/

inductive SqlParam where
  | str (s : String)
  | num (n : Int)
  deriving Repr, DecidableEq

/-- The query `getServiceOrders` assembles: a fixed SELECT, a
`WHERE so.os_number LIKE ?` appended only when `search` is present, and
LIMIT/OFFSET; the search pattern and the paging numbers travel in the
parameter list. -/
def getServiceOrdersQuery (page limit : Int) (search : Option String) :
    String × List SqlParam :=
  let base := "SELECT so.*, GROUP_CONCAT(d.name) as departments FROM service_orders so LEFT JOIN os_departments osd ON so.id = osd.os_id LEFT JOIN departments d ON osd.department_id = d.id"
  let withSearch :=
    match search with
    | some s => (base ++ " WHERE so.os_number LIKE ?", [SqlParam.str ("%" ++ s ++ "%")])
    | none => (base, ([] : List SqlParam))
  (withSearch.1 ++ " GROUP BY so.id LIMIT ? OFFSET ?",
    withSearch.2 ++ [SqlParam.num limit, SqlParam.num ((page - 1) * limit)])

/-! ## serviceOrders.controller.ts: updateServiceOrder

Routed as PUT /service-orders/:id next to os.controller's create, so it
runs against the main schema; the two-column bulk insert leaves the
execution-time columns at their defaults (modelled as `""`). -/

structure UpdateSOReq where
  id : Nat
  updateData : List (String × String)
  departments : Option (List Nat)
  deriving Repr, DecidableEq

/-- `UPDATE service_orders SET ? WHERE id = ?` with a key/value object:
only the `os_number` column exists on the modelled row. -/
def applyServiceOrderSet (kvs : List (String × String)) (so : ServiceOrderRow) : ServiceOrderRow :=
  kvs.foldl (fun acc kv => if kv.1 = "os_number" then { acc with os_number := kv.2 } else acc) so

/-- Rows produced by `INSERT INTO os_departments (os_id, department_id) VALUES ?`,
consuming AUTO_INCREMENT ids from `start`. -/
def mkDeptPairRows (start osId : Nat) : List Nat → List OsDepartmentRow
  | [] => []
  | d :: rest => ⟨start, osId, d, "", ""⟩ :: mkDeptPairRows (start + 1) osId rest

def updateServiceOrder (db : DB) (req : UpdateSOReq) : ControllerOut :=
  let upd :=
    if req.updateData.length > 0 then
      ({ db with service_orders := db.service_orders.map (fun so =>
          if so.id = req.id then applyServiceOrderSet req.updateData so else so) },
        [Op.updateServiceOrdersSet (req.updateData.map (fun kv => kv.1))
          (req.updateData.map (fun kv => kv.2)) req.id])
    else (db, ([] : List Op))
  match req.departments with
  | none => ⟨200, upd.1, [.beginTx] ++ upd.2 ++ [.commit]⟩
  | some ds =>
    let db2 : DB :=
      { upd.1 with os_departments := upd.1.os_departments.filter (fun r => r.os_id ≠ req.id) }
    if ds.length > 0 then
      let db3 : DB :=
        { db2 with
          os_departments := db2.os_departments ++ mkDeptPairRows db2.next_osdept_id req.id ds,
          next_osdept_id := db2.next_osdept_id + ds.length }
      ⟨200, db3, [.beginTx] ++ upd.2 ++
        [.deleteOsDepartmentsByOs req.id,
          .insertOsDepartmentPairs (ds.map (fun d => (req.id, d))), .commit]⟩
    else
      ⟨200, db2, [.beginTx] ++ upd.2 ++ [.deleteOsDepartmentsByOs req.id, .commit]⟩

/-! ## os.controller.ts: deleteServiceOrder -/

/-- `deleteServiceOrder`: `none` stands for a non-numeric `:id`
(`parseInt` gave NaN).  Existence check, then the dependent
`os_collaborators` (only when the order has departments),
`os_departments`, `os_service_days` rows and finally the parent row are
deleted inside one transaction. -/
def deleteServiceOrder (db : DB) (osId? : Option Nat) : ControllerOut :=
  match osId? with
  | none => ⟨400, db, []⟩
  | some osId =>
    let os := db.service_orders.filter (fun so => so.id = osId)
    if os.length = 0 then
      ⟨404, db, [.beginTx, .selectOsById osId, .rollback]⟩
    else
      let departmentIds := (db.os_departments.filter (fun d => d.os_id = osId)).map (fun d => d.id)
      let db1 : DB :=
        if departmentIds.length > 0 then
          { db with os_collaborators := db.os_collaborators.filter (fun c =>
              !(departmentIds.contains c.os_department_id)) }
        else db
      let collabOps : List Op :=
        if departmentIds.length > 0 then [.deleteOsCollaboratorsIn departmentIds] else []
      let db2 : DB := { db1 with os_departments := db1.os_departments.filter (fun d => d.os_id ≠ osId) }
      let db3 : DB := { db2 with os_service_days := db2.os_service_days.filter (fun r => r.os_id ≠ osId) }
      let db4 : DB := { db3 with service_orders := db3.service_orders.filter (fun so => so.id ≠ osId) }
      ⟨200, db4, [.beginTx, .selectOsById osId, .selectOsDepartmentIdsByOs osId] ++ collabOps ++
        [.deleteOsDepartmentsByOs osId, .deleteOsServiceDaysByOs osId,
          .deleteServiceOrderById osId, .commit]⟩

/-! ## departments.controller: deleteDepartment -/

/-- `deleteDepartment`: refuses (400) while any `employee_departments`
or `os_departments` row references the department; 404 when the DELETE
touches no row; 204 on success. -/
def deleteDepartment (db : DB) (deptId : Nat) : ControllerOut :=
  let empRefs := db.employee_departments.filter (fun r => r.department_id = deptId)
  let osRefs := db.os_departments.filter (fun r => r.department_id = deptId)
  let pre : List Op := [.beginTx, .selectEmpDeptByDept deptId, .selectOsDeptByDept deptId]
  if empRefs.length > 0 ∨ osRefs.length > 0 then
    ⟨400, db, pre ++ [.rollback]⟩
  else
    let affected := (db.departments.filter (fun d => d.id = deptId)).length
    if affected = 0 then
      ⟨404, db, pre ++ [.deleteDepartmentById deptId, .rollback]⟩
    else
      ⟨204, { db with departments := db.departments.filter (fun d => d.id ≠ deptId) },
        pre ++ [.deleteDepartmentById deptId, .commit]⟩

/-! ## employees.controller: updateEmployee -/

structure UpdateEmpReq where
  id : Nat
  updateData : List (String × String)
  departments : Option (List Nat)
  deriving Repr, DecidableEq

/-- `UPDATE employees SET <keys> WHERE id = ?` applied to a row; the
values arrive already hashed for the `password` key. -/
def applyEmployeeSet (kvs : List (String × String)) (e : EmployeeRow) : EmployeeRow :=
  kvs.foldl (fun acc kv =>
    if kv.1 = "name" then { acc with name := kv.2 }
    else if kv.1 = "username" then { acc with username := kv.2 }
    else if kv.1 = "password" then { acc with password := kv.2 }
    else acc) e

/-- `updateEmployee` (employees.controller): the SET clause is built by
joining the request-body keys into the SQL string; a `password` value is
first run through bcrypt (`hash`).  An invalid department list throws,
which rolls back and surfaces as a 500 with the error message. -/
def updateEmployee (hash : String → String) (db : DB) (req : UpdateEmpReq) : ControllerOut :=
  let hashedData := req.updateData.map (fun kv =>
    if kv.1 = "password" then (kv.1, hash kv.2) else kv)
  let updDb : DB :=
    if req.updateData.length > 0 then
      { db with employees := db.employees.map (fun e =>
          if e.id = req.id then applyEmployeeSet hashedData e else e) }
    else db
  let updOps : List Op :=
    if req.updateData.length > 0 then
      [Op.updateEmployeesSet (hashedData.map (fun kv => kv.1))
        (hashedData.map (fun kv => kv.2)) req.id]
    else []
  match req.departments with
  | none => ⟨200, updDb, [.beginTx] ++ updOps ++ [.commit]⟩
  | some ds =>
    let db2 : DB :=
      { updDb with employee_departments :=
          updDb.employee_departments.filter (fun r => r.employee_id ≠ req.id) }
    let t2 := updOps ++ [Op.deleteEmployeeDepartmentsByEmp req.id]
    if ds.length > 0 then
      let valid := db2.departments.filter (fun d => ds.contains d.id)
      if valid.length ≠ ds.length then
        ⟨500, db, [.beginTx] ++ t2 ++ [.selectDepartmentsIn ds, .rollback]⟩
      else
        let db3 : DB :=
          { db2 with employee_departments :=
              db2.employee_departments ++ ds.map (fun d => ⟨req.id, d⟩) }
        ⟨200, db3, [.beginTx] ++ t2 ++
          [.selectDepartmentsIn ds,
            .insertEmployeeDepartments (ds.map (fun d => (req.id, d))), .commit]⟩
    else
      ⟨200, db2, [.beginTx] ++ t2 ++ [.commit]⟩

/-! ## Router (routes/index) and authMiddleware -/

inductive Handler where
  | auth
  | controller (name : String)
  deriving Repr, DecidableEq

structure Route where
  method : String
  path : String
  handlers : List Handler
  deriving Repr, DecidableEq

/-- The route table of routes/index.ts: every registration passes the
controller directly; none of them interposes `authMiddleware`. -/
def routes : List Route :=
  [⟨"post", "/auth/login", [.controller "loginEmployee"]⟩,
    ⟨"post", "/employee", [.controller "createEmployee"]⟩,
    ⟨"get", "/employee", [.controller "getEmployees"]⟩,
    ⟨"put", "/employee/:id", [.controller "updateEmployee"]⟩,
    ⟨"delete", "/employee/:id", [.controller "deleteEmployee"]⟩,
    ⟨"get", "/employee/all", [.controller "getAllEmployees"]⟩,
    ⟨"get", "/employees/:username", [.controller "getEmployeeByUsername"]⟩,
    ⟨"get", "/employee/:id", [.controller "getEmployeeById"]⟩,
    ⟨"post", "/service-orders", [.controller "createServiceOrder"]⟩,
    ⟨"get", "/service-orders", [.controller "getServiceOrders"]⟩,
    ⟨"put", "/service-orders/:id", [.controller "updateServiceOrder"]⟩,
    ⟨"delete", "/service-orders/:id", [.controller "deleteServiceOrder"]⟩,
    ⟨"get", "/service-orders/:id", [.controller "getServiceOrderById"]⟩,
    ⟨"post", "/departments", [.controller "createDepartment"]⟩,
    ⟨"get", "/departments", [.controller "getDepartments"]⟩,
    ⟨"put", "/departments/:id", [.controller "updateDepartment"]⟩,
    ⟨"get", "/departments/:id", [.controller "getDepartmentById"]⟩,
    ⟨"delete", "/departments/:id", [.controller "deleteDepartment"]⟩]

/-- JavaScript `String.prototype.replace` with a string pattern:
replaces the first occurrence only. -/
def replaceFirst (s pat : String) : String :=
  match s.splitOn pat with
  | [] => s
  | [x] => x
  | x :: y :: rest => x ++ String.intercalate pat (y :: rest)

structure HttpReq where
  authorization : Option String
  deriving Repr, DecidableEq

structure DispatchResult where
  status : Option Nat
  executed : List String
  deriving Repr, DecidableEq

/-- Runs a route's handler chain.  `authMiddleware` (middlewares/auth)
strips `"Bearer "` from the Authorization header, answers 401 when the
token is missing, empty or rejected by `jwt.verify` (`verify`), and
calls `next()` otherwise; a controller handler records its execution. -/
def runHandlers (verify : String → Bool) (req : HttpReq) : List Handler → DispatchResult
  | [] => ⟨none, []⟩
  | Handler.auth :: rest =>
    (match req.authorization.map (fun h => replaceFirst h "Bearer ") with
      | none => ⟨some 401, []⟩
      | some tok =>
        if tok == "" then ⟨some 401, []⟩
        else if verify tok then runHandlers verify req rest
        else ⟨some 401, []⟩)
  | Handler.controller nm :: rest =>
    let r := runHandlers verify req rest
    ⟨r.status, nm :: r.executed⟩

/-! ## Trace predicates -/

def Op.isInsert : Op → Bool
  | .insertServiceOrder _ => true
  | .insertServiceDays _ => true
  | .insertOsDepartment _ _ _ _ => true
  | .insertOsCollaborators _ => true
  | .insertScOsDepartments _ => true
  | .insertOsDepartmentPairs _ => true
  | .insertEmployeeDepartments _ => true
  | _ => false

/-- Foreign-key existence validations: the SELECTs against `employees`
and `departments` used to validate referenced ids. -/
def Op.isExistenceCheck : Op → Bool
  | .selectEmployeesIn _ => true
  | .selectDepartmentsIn _ => true
  | _ => false

/-- The duplicate-`os_number` lookup. -/
def Op.isDupCheck : Op → Bool
  | .selectOsByNumber _ => true
  | _ => false

/-- `true` when some INSERT occurs strictly before an operation
satisfying `p` in the trace. -/
def anyInsertBefore (p : Op → Bool) : List Op → Bool
  | [] => false
  | op :: rest => (op.isInsert && rest.any p) || anyInsertBefore p rest

/-! ## Helper lemmas -/

theorem char_eq_of_toNat_eq {a b : Char} (h : a.toNat = b.toNat) : a = b := by
  have h2 := congrArg Char.ofNat h
  rwa [Char.ofNat_toNat, Char.ofNat_toNat] at h2

/-- If the department loop finishes with an error, the trace it produced
contains the rollback. -/
theorem processDepts_error_rollback (osId : Nat) (db : DB) (deps : List DeptReq)
    {s : Nat} {t : List Op} (h : processDepts osId db deps = (.error s, t)) :
    s = 400 ∧ Op.rollback ∈ t := by
  induction deps generalizing db t with
  | nil => rw [processDepts] at h; exact absurd h (by simp)
  | cons dept rest ih =>
    rw [processDepts] at h
    split at h
    · injection h with h1 h2
      injection h1 with h1
      subst h2
      exact ⟨h1.symm, by simp⟩
    · dsimp only at h
      split at h
      · split at h
        · injection h with h1 h2
          injection h1 with h1
          subst h2
          exact ⟨h1.symm, by simp⟩
        · rcases heq : processDepts osId _ rest with ⟨r1, t1⟩
          rw [heq] at h
          dsimp only at h
          injection h with h1 h2
          subst h1 h2
          have := ih _ heq
          exact ⟨this.1, by simp [this.2]⟩
      · rcases heq : processDepts osId _ rest with ⟨r1, t1⟩
        rw [heq] at h
        dsimp only at h
        injection h with h1 h2
        subst h1 h2
        have := ih _ heq
        exact ⟨this.1, by simp [this.2]⟩

/-- A successful department loop leaves `employees`, `service_orders`
and `os_service_days` untouched, and certifies that every department it
consumed passed the time check and, when it listed collaborators, the
collaborator-count check. -/
theorem processDepts_ok (osId : Nat) (db : DB) (deps : List DeptReq) (db' : DB) (t : List Op)
    (h : processDepts osId db deps = (.ok db', t)) :
    db'.employees = db.employees ∧ db'.service_orders = db.service_orders ∧
    db'.os_service_days = db.os_service_days ∧
    db.os_departments.Sublist db'.os_departments ∧
    (deps ≠ [] → ∃ row ∈ db'.os_departments, row.os_id = osId) ∧
    ∀ dept ∈ deps,
      isValidTime dept.execution_start = true ∧ isValidTime dept.execution_end = true ∧
      (dept.collaborator_ids ≠ [] →
        (db.employees.filter (fun e => dept.collaborator_ids.contains e.id)).length
          = dept.collaborator_ids.length) := by
  induction deps generalizing db t with
  | nil =>
    rw [processDepts] at h
    injection h with h1 h2
    injection h1 with h1
    subst h1
    exact ⟨rfl, rfl, rfl, List.Sublist.refl _, fun hne => absurd rfl hne, by simp⟩
  | cons dept rest ih =>
    rw [processDepts] at h
    split at h
    · exact absurd h (by simp)
    · rename_i htime
      dsimp only at h
      split at h
      · rename_i hpos
        split at h
        · exact absurd h (by simp)
        · rename_i hcount
          rcases heq : processDepts osId _ rest with ⟨r1, t1⟩
          rw [heq] at h
          dsimp only at h
          injection h with h1 h2
          subst h2
          subst h1
          obtain ⟨he, hso, hdays, hsub, hrow, hrest⟩ := ih _ _ heq
          have hsub2 : db.os_departments.Sublist db'.os_departments :=
            List.Sublist.trans (List.sublist_append_left _ _) hsub
          have hmemrow : (⟨db.next_osdept_id, osId, dept.department_id,
              dept.execution_start, dept.execution_end⟩ : OsDepartmentRow) ∈ db'.os_departments := by
            refine hsub.subset ?_
            exact List.mem_append_right _ (List.mem_singleton.mpr rfl)
          refine ⟨he, hso, hdays, hsub2, fun _ => ⟨_, hmemrow, rfl⟩, ?_⟩
          intro d hd
          rcases List.mem_cons.mp hd with rfl | hd
          · refine ⟨?_, ?_, fun _ => ?_⟩
            · cases hs : isValidTime d.execution_start <;> simp_all
            · cases hs : isValidTime d.execution_end <;> simp_all
            · exact Decidable.not_not.mp hcount
          · exact hrest d hd
      · rename_i hpos
        rcases heq : processDepts osId _ rest with ⟨r1, t1⟩
        rw [heq] at h
        dsimp only at h
        injection h with h1 h2
        subst h2
        subst h1
        obtain ⟨he, hso, hdays, hsub, hrow, hrest⟩ := ih _ _ heq
        have hsub2 : db.os_departments.Sublist db'.os_departments :=
          List.Sublist.trans (List.sublist_append_left _ _) hsub
        have hmemrow : (⟨db.next_osdept_id, osId, dept.department_id,
            dept.execution_start, dept.execution_end⟩ : OsDepartmentRow) ∈ db'.os_departments := by
          refine hsub.subset ?_
          exact List.mem_append_right _ (List.mem_singleton.mpr rfl)
        refine ⟨he, hso, hdays, hsub2, fun _ => ⟨_, hmemrow, rfl⟩, ?_⟩
        intro d hd
        rcases List.mem_cons.mp hd with rfl | hd
        · refine ⟨?_, ?_, fun hcol => ?_⟩
          · cases hs : isValidTime d.execution_start <;> simp_all
          · cases hs : isValidTime d.execution_end <;> simp_all
          · exact absurd (List.length_pos.mpr hcol) (by omega)
        · exact hrest d hd

/-- If the stored employee ids are distinct and the count returned by
`SELECT id FROM employees WHERE id IN (?)` equals the number of
requested ids, then every requested id belongs to some employee row. -/
theorem all_ids_exist_of_filter_length (emps : List EmployeeRow) (ids : List Nat)
    (hnd : (emps.map EmployeeRow.id).Nodup)
    (h : (emps.filter (fun e => ids.contains e.id)).length = ids.length) :
    ∀ i ∈ ids, ∃ e ∈ emps, e.id = i := by
  classical
  set l := (emps.filter (fun e => ids.contains e.id)).map EmployeeRow.id with hl
  have hsub : l.Sublist (emps.map EmployeeRow.id) := (List.filter_sublist _).map _
  have hlnd : l.Nodup := hnd.sublist hsub
  have hlen : l.length = ids.length := by
    rw [hl, List.length_map]; exact h
  have hmem : ∀ x ∈ l, x ∈ ids := by
    intro x hx
    rw [hl] at hx
    obtain ⟨e, he, rfl⟩ := List.mem_map.mp hx
    have hc := List.of_mem_filter he
    simpa using hc
  have hsubF : l.toFinset ⊆ ids.toFinset := by
    intro x hx
    rw [List.mem_toFinset] at hx ⊢
    exact hmem x hx
  have hcard : ids.toFinset.card ≤ l.toFinset.card := by
    have h1 : l.toFinset.card = l.length := List.toFinset_card_of_nodup hlnd
    have h2 : ids.toFinset.card ≤ ids.length := List.toFinset_card_le ids
    omega
  have hFeq : l.toFinset = ids.toFinset := Finset.eq_of_subset_of_card_le hsubF hcard
  intro i hi
  have hil : i ∈ l.toFinset := by rw [hFeq, List.mem_toFinset]; exact hi
  rw [List.mem_toFinset, hl] at hil
  obtain ⟨e, he, heq⟩ := List.mem_map.mp hil
  exact ⟨e, List.mem_of_mem_filter he, heq⟩

/-- Every outcome of os.controller's `createServiceOrder` other than 201
leaves the database exactly as it was; and whenever the transaction had
begun, the trace records the rollback. -/
theorem createServiceOrder_not_created (db : DB) (req : CreateOSReq) :
    (createServiceOrder db req).status = 201 ∨
      ((createServiceOrder db req).db = db ∧
        (Op.beginTx ∈ (createServiceOrder db req).trace →
          Op.rollback ∈ (createServiceOrder db req).trace)) := by
  unfold createServiceOrder
  dsimp only
  split
  · exact Or.inr ⟨rfl, by simp⟩
  · split
    · exact Or.inr ⟨rfl, by simp⟩
    · split
      · exact Or.inr ⟨rfl, by simp⟩
      · split
        · exact Or.inr ⟨rfl, by simp⟩
        · split
          · rename_i s t heq
            refine Or.inr ⟨rfl, fun _ => ?_⟩
            have := (processDepts_error_rollback _ _ _ heq).2
            simp [this]
          · exact Or.inl rfl

/-- On a 201 every body check passed, the `os_number` was free, the new
`os_service_days` rows are the first-occurrence dedup of the request's
days, and every department of the request passed the execution-time
check and (when it listed collaborators) the collaborator-count check. -/
theorem createServiceOrder_created (db : DB) (req : CreateOSReq) :
    (createServiceOrder db req).status = 201 →
    req.os_number ≠ "" ∧ req.service_days ≠ none ∧
    req.service_days.getD [] ≠ [] ∧
    (∀ d ∈ req.service_days.getD [], 0 ≤ d ∧ d ≤ 6) ∧
    req.departments ≠ none ∧ req.departments.getD [] ≠ [] ∧
    (db.service_orders.filter (fun so => so.os_number = req.os_number)).length = 0 ∧
    (createServiceOrder db req).db.os_service_days =
      db.os_service_days ++
        (dedupFirst (req.service_days.getD [])).map (fun d => ⟨db.next_so_id, d⟩) ∧
    (∃ d ∈ (createServiceOrder db req).db.os_departments, d.os_id = db.next_so_id) ∧
    ∀ dept ∈ req.departments.getD [],
      isValidTime dept.execution_start = true ∧ isValidTime dept.execution_end = true ∧
      (dept.collaborator_ids ≠ [] →
        (db.employees.filter (fun e => dept.collaborator_ids.contains e.id)).length
          = dept.collaborator_ids.length) := by
  unfold createServiceOrder
  dsimp only
  split
  · intro h; exact absurd h (by simp)
  · split
    · intro h; exact absurd h (by simp)
    · split
      · intro h; exact absurd h (by simp)
      · split
        · intro h; exact absurd h (by simp)
        · split
          · rename_i s t heq
            intro h
            obtain ⟨rfl, -⟩ := processDepts_error_rollback _ _ _ heq
            exact absurd h (by simp)
          · rename_i c1 c2 c3 c4 x db3 t heq
            intro _
            simp only [Bool.or_eq_true, not_or, Bool.not_eq_true] at c1
            obtain ⟨⟨hos, hsd⟩, hde⟩ := c1
            simp only [Bool.or_eq_true, not_or, Bool.not_eq_true] at c3
            obtain ⟨hdn, hdne⟩ := c3
            obtain ⟨hemp, hso, hdays, hsub, hrow, hdepts⟩ := processDepts_ok _ _ _ _ _ heq
            refine ⟨by simpa using hos, Option.ne_none_iff_isSome.mpr (by simpa using hsd),
              by simpa using hde,
              ?_, Option.ne_none_iff_isSome.mpr (by simpa using hdn),
              by simpa using hdne, by omega, ?_, hrow (by simpa using hdne), ?_⟩
            · intro d hd
              have hnb : ¬((decide (d < 0) || decide (d > 6)) = true) := by
                intro hbad
                exact c2 (List.any_eq_true.mpr ⟨d, hd, hbad⟩)
              simp only [Bool.or_eq_true, decide_eq_true_eq, not_or] at hnb
              omega
            · rw [hdays]
            · intro dept hdept
              exact hdepts dept hdept

/-- The operations the department loop can issue. -/
def Op.isDeptLoopOp : Op → Bool
  | .insertOsDepartment _ _ _ _ => true
  | .selectEmployeesIn _ => true
  | .insertOsCollaborators _ => true
  | .rollback => true
  | _ => false

/-- The operations os.controller's `createServiceOrder` can issue. -/
def Op.isCreateOp : Op → Bool
  | .beginTx => true
  | .commit => true
  | .rollback => true
  | .selectOsByNumber _ => true
  | .insertServiceOrder _ => true
  | .insertServiceDays _ => true
  | .insertOsDepartment _ _ _ _ => true
  | .selectEmployeesIn _ => true
  | .insertOsCollaborators _ => true
  | _ => false

theorem processDepts_trace_ops (osId : Nat) (db : DB) (deps : List DeptReq)
    {r : Except Nat DB} {t : List Op} (h : processDepts osId db deps = (r, t)) :
    ∀ op ∈ t, op.isDeptLoopOp = true := by
  induction deps generalizing db r t with
  | nil =>
    rw [processDepts] at h
    injection h with h1 h2
    subst h2
    simp
  | cons dept rest ih =>
    rw [processDepts] at h
    split at h
    · injection h with h1 h2
      subst h2
      simp [Op.isDeptLoopOp]
    · dsimp only at h
      split at h
      · split at h
        · injection h with h1 h2
          subst h2
          intro op hop
          simp only [List.mem_cons, List.not_mem_nil, or_false] at hop
          rcases hop with rfl | rfl | rfl <;> rfl
        · rcases heq : processDepts osId _ rest with ⟨r1, t1⟩
          rw [heq] at h
          dsimp only at h
          injection h with h1 h2
          subst h2
          intro op hop
          simp only [List.mem_cons] at hop
          rcases hop with rfl | rfl | rfl | hop
          · rfl
          · rfl
          · rfl
          · exact ih _ heq op hop
      · rcases heq : processDepts osId _ rest with ⟨r1, t1⟩
        rw [heq] at h
        dsimp only at h
        injection h with h1 h2
        subst h2
        intro op hop
        simp only [List.mem_cons] at hop
        rcases hop with rfl | hop
        · rfl
        · exact ih _ heq op hop

theorem deptLoopOp_isCreateOp {op : Op} (h : op.isDeptLoopOp = true) : op.isCreateOp = true := by
  cases op <;> simp_all [Op.isDeptLoopOp, Op.isCreateOp]

theorem deptLoopOp_not_dupCheck {op : Op} (h : op.isDeptLoopOp = true) :
    op.isDupCheck = false := by
  cases op <;> simp_all [Op.isDeptLoopOp, Op.isDupCheck]

theorem deptLoopOp_not_commit {op : Op} (h : op.isDeptLoopOp = true) : op ≠ Op.commit := by
  cases op <;> simp_all [Op.isDeptLoopOp]

theorem anyInsertBefore_eq_false_of_no_p (p : Op → Bool) (t : List Op)
    (h : ∀ op ∈ t, p op = false) : anyInsertBefore p t = false := by
  induction t with
  | nil => rfl
  | cons op rest ih =>
    rw [anyInsertBefore]
    have h1 : rest.any p = false :=
      List.any_eq_false.mpr (fun x hx => by simp [h x (List.mem_cons_of_mem _ hx)])
    have h2 : anyInsertBefore p rest = false :=
      ih (fun x hx => h x (List.mem_cons_of_mem _ hx))
    simp [h1, h2]

/-- Every run of os.controller's `createServiceOrder` answers 201, 400
or 409. -/
theorem createServiceOrder_status_cases (db : DB) (req : CreateOSReq) :
    (createServiceOrder db req).status = 201 ∨ (createServiceOrder db req).status = 400 ∨
      (createServiceOrder db req).status = 409 := by
  unfold createServiceOrder
  dsimp only
  split
  · exact Or.inr (Or.inl rfl)
  · split
    · exact Or.inr (Or.inl rfl)
    · split
      · exact Or.inr (Or.inl rfl)
      · split
        · exact Or.inr (Or.inr rfl)
        · split
          · rename_i st t heq
            obtain ⟨rfl, -⟩ := processDepts_error_rollback _ _ _ heq
            exact Or.inr (Or.inl rfl)
          · exact Or.inl rfl

/-- On a 201 of serviceOrders.controller's `createServiceOrder`, every
department referenced by the request exists in the `departments`
table. -/
theorem scCreateServiceOrder_created (db : ScDB) (req : ScCreateReq) :
    (scCreateServiceOrder db req).status = 201 →
    ∀ dept ∈ req.departments.getD [], ∃ d ∈ db.departments, d.id = dept.department_id := by
  unfold scCreateServiceOrder
  dsimp only
  split
  · intro h; exact absurd h (by simp)
  · split
    · intro h; exact absurd h (by simp)
    · rename_i hval
      split
      · intro h; exact absurd h (by simp)
      · split
        · rename_i hemp
          intro _ dept hdept
          rw [List.isEmpty_iff.mp hemp] at hdept
          exact absurd hdept (List.not_mem_nil dept)
        · rename_i hemp
          intro _ dept hdept
          have hin : dept.department_id ∈
              (req.departments.getD []).map (fun d => d.department_id) :=
            List.mem_map.mpr ⟨dept, hdept, rfl⟩
          by_cases hc : (((db.departments.filter (fun d =>
              ((req.departments.getD []).map (fun d => d.department_id)).contains d.id)).map
                (fun d => d.id)).contains dept.department_id) = true
          · have hc2 : dept.department_id ∈ (db.departments.filter (fun d =>
                ((req.departments.getD []).map (fun d => d.department_id)).contains d.id)).map
                  (fun d => d.id) := by simpa using hc
            obtain ⟨d, hd, hdid⟩ := List.mem_map.mp hc2
            exact ⟨d, List.mem_of_mem_filter hd, hdid⟩
          · exfalso
            apply hval
            refine ⟨hemp, fun hempty => ?_⟩
            rw [List.isEmpty_iff] at hempty
            have h2 := List.filter_eq_nil_iff.mp hempty _ hin
            rw [Bool.not_eq_true] at hc
            apply h2
            simp only [Bool.not_eq_true']
            exact hc

/-- The regex `/^([01]\d|2[0-3]):([0-5]\d)$/` accepts a character list
exactly when it is `HH:MM` with hour 00–23 and minute 00–59. -/
theorem isValidTimeChars_iff (l : List Char) :
    isValidTimeChars l = true ↔
      ∃ h1 h2 m1 m2 : Char,
        l = [h1, h2, ':', m1, m2] ∧
        isDigitChar h1 = true ∧ isDigitChar h2 = true ∧
        isDigitChar m1 = true ∧ isDigitChar m2 = true ∧
        10 * (h1.toNat - 48) + (h2.toNat - 48) ≤ 23 ∧
        10 * (m1.toNat - 48) + (m2.toNat - 48) ≤ 59 := by
  have t0 : ('0' : Char).toNat = 48 := rfl
  have t1 : ('1' : Char).toNat = 49 := rfl
  have t2 : ('2' : Char).toNat = 50 := rfl
  rcases l with _ | ⟨a, _ | ⟨b, _ | ⟨c, _ | ⟨d, _ | ⟨e, _ | ⟨f, rest⟩⟩⟩⟩⟩⟩
  · simp [isValidTimeChars]
  · simp [isValidTimeChars]
  · simp [isValidTimeChars]
  · simp [isValidTimeChars]
  · simp [isValidTimeChars]
  · rw [isValidTimeChars]
    constructor
    · intro h
      simp only [Bool.and_eq_true, Bool.or_eq_true, beq_iff_eq, decide_eq_true_eq] at h
      obtain ⟨⟨⟨hH, hc⟩, hm1⟩, hm2⟩ := h
      have hdm2 : 48 ≤ e.toNat ∧ e.toNat ≤ 57 := by
        simpa [isDigitChar, Bool.and_eq_true, decide_eq_true_eq] using hm2
      refine ⟨a, b, d, e, by rw [hc], ?_, ?_, ?_, hm2, ?_, by omega⟩
      · rcases hH with ⟨ha, -⟩ | ⟨ha, -⟩
        · rcases ha with rfl | rfl <;> rfl
        · subst ha; rfl
      · rcases hH with ⟨-, hb⟩ | ⟨-, hb⟩
        · exact hb
        · simp only [isDigitChar, Bool.and_eq_true, decide_eq_true_eq]
          omega
      · simp only [isDigitChar, Bool.and_eq_true, decide_eq_true_eq]
        omega
      · rcases hH with ⟨ha, hb⟩ | ⟨ha, hb⟩
        · have hbb : 48 ≤ b.toNat ∧ b.toNat ≤ 57 := by
            simpa [isDigitChar, Bool.and_eq_true, decide_eq_true_eq] using hb
          rcases ha with rfl | rfl
          · rw [t0]; omega
          · rw [t1]; omega
        · subst ha
          rw [t2]
          omega
    · rintro ⟨h1, h2, m1, m2, heq, d1, d2, d3, d4, hb1, hb2⟩
      simp only [List.cons.injEq, and_true] at heq
      obtain ⟨rfl, rfl, rfl, rfl, rfl⟩ := heq
      simp only [isDigitChar, Bool.and_eq_true, decide_eq_true_eq] at d1 d2 d3 d4
      simp only [Bool.and_eq_true, Bool.or_eq_true, beq_iff_eq, decide_eq_true_eq,
        isDigitChar]
      refine ⟨⟨⟨?_, trivial⟩, by omega, by omega⟩, by omega, by omega⟩
      by_cases h50 : a.toNat = 50
      · exact Or.inr ⟨char_eq_of_toNat_eq (by rw [t2]; omega), by omega, by omega⟩
      · refine Or.inl ⟨?_, by omega, by omega⟩
        by_cases h48 : a.toNat = 48
        · exact Or.inl (char_eq_of_toNat_eq (by rw [t0]; omega))
        · exact Or.inr (char_eq_of_toNat_eq (by rw [t1]; omega))
  · simp [isValidTimeChars]

/-- `isValidTime` accepts a string exactly when it satisfies the
`HH:MM` specification. -/
theorem isValidTime_iff_timeSpec (s : String) : isValidTime s = true ↔ timeSpec s :=
  isValidTimeChars_iff s.data

/-- Every outcome of serviceOrders.controller's `createServiceOrder`
other than 201 leaves the database unchanged and, once the transaction
has begun, traces a rollback. -/
theorem scCreateServiceOrder_not_created (db : ScDB) (req : ScCreateReq) :
    (scCreateServiceOrder db req).status = 201 ∨
      ((scCreateServiceOrder db req).db = db ∧
        (Op.beginTx ∈ (scCreateServiceOrder db req).trace →
          Op.rollback ∈ (scCreateServiceOrder db req).trace)) := by
  unfold scCreateServiceOrder
  dsimp only
  split
  · exact Or.inr ⟨rfl, by simp⟩
  · split
    · exact Or.inr ⟨rfl, by simp⟩
    · split
      · exact Or.inr ⟨rfl, by simp⟩
      · split
        · exact Or.inl rfl
        · exact Or.inl rfl

/-! ## Concrete fixtures for witnesses and counterexamples -/

def exDB : DB := ⟨[], [], [], [], [⟨7, "ana", "ana", "pw"⟩], [⟨3, "paint", 1⟩], [], 1, 1⟩

def exDBdup : DB := ⟨[⟨1, "OS-1"⟩], [], [], [], [], [], [], 2, 1⟩

def exDBfull : DB :=
  ⟨[⟨1, "OS-1"⟩, ⟨2, "OS-2"⟩],
    [⟨1, 1, 3, "08:00", "09:00"⟩, ⟨2, 2, 4, "08:00", "09:00"⟩],
    [⟨1, 7⟩, ⟨2, 7⟩], [⟨1, 1⟩, ⟨2, 2⟩],
    [⟨7, "ana", "ana", "pw"⟩],
    [⟨3, "paint", 1⟩, ⟨4, "weld", 2⟩],
    [⟨7, 4⟩], 3, 3⟩

/-! ## Claims -/

/-- C1: every POST /service-orders request that fails a validation step
after its transaction has begun rolls the transaction back and leaves
the database state unchanged: in both `createServiceOrder` variants,
every non-201 outcome returns the pre-request database, and whenever the
transaction had begun the trace records the rollback, so no row inserted
during the request persists. -/
theorem C1_rollback_on_validation_failure :
    (∀ (db : DB) (req : CreateOSReq), (createServiceOrder db req).status ≠ 201 →
      (createServiceOrder db req).db = db ∧
      (Op.beginTx ∈ (createServiceOrder db req).trace →
        Op.rollback ∈ (createServiceOrder db req).trace)) ∧
    (∀ (db : ScDB) (req : ScCreateReq), (scCreateServiceOrder db req).status ≠ 201 →
      (scCreateServiceOrder db req).db = db ∧
      (Op.beginTx ∈ (scCreateServiceOrder db req).trace →
        Op.rollback ∈ (scCreateServiceOrder db req).trace)) := by
  constructor
  · intro db req h
    rcases createServiceOrder_not_created db req with h201 | hok
    · exact absurd h201 h
    · exact hok
  · intro db req h
    rcases scCreateServiceOrder_not_created db req with h201 | hok
    · exact absurd h201 h
    · exact hok

/-- Witness for C1: a duplicate `os_number` request is answered 409 and
the database is exactly the one before the request. -/
theorem C1_rollback_on_validation_failure_witness :
    (createServiceOrder exDBdup ⟨"OS-1", some [1], some [⟨3, "08:00", "09:00", []⟩]⟩).status ≠ 201 ∧
    (createServiceOrder exDBdup ⟨"OS-1", some [1], some [⟨3, "08:00", "09:00", []⟩]⟩).db = exDBdup :=
  ⟨by decide,
    (C1_rollback_on_validation_failure.1 exDBdup
      ⟨"OS-1", some [1], some [⟨3, "08:00", "09:00", []⟩]⟩ (by decide)).1⟩

/-- Counterexample to C2: os.controller's `createServiceOrder` never
consults the `departments` table, so a request referencing department 5
— absent from a database whose only department is id 3 — is still
answered 201. -/
theorem C2_counterexample :
    (createServiceOrder exDB ⟨"OS-9", some [1], some [⟨5, "08:00", "09:00", [7]⟩]⟩).status = 201 ∧
    (exDB.departments.all (fun d => d.id ≠ 5)) = true ∧
    ∃ d ∈ (createServiceOrder exDB
      ⟨"OS-9", some [1], some [⟨5, "08:00", "09:00", [7]⟩]⟩).db.os_departments,
        d.department_id = 5 := by
  refine ⟨by decide, by decide, ⟨1, 1, 5, "08:00", "09:00"⟩, by decide, rfl⟩

/-- C2 (amended): referenced collaborators are validated by
os.controller's `createServiceOrder` — a 201 implies every listed
collaborator id exists in `employees` (given distinct stored ids), and
every failure is a client error (400 or 409) — while referenced
departments are validated only by serviceOrders.controller's variant,
whose 201 implies every referenced department exists; os.controller's
variant does not check department existence. -/
theorem C2_existence_validation_amended :
    (∀ (db : DB) (req : CreateOSReq),
      (db.employees.map EmployeeRow.id).Nodup →
      (createServiceOrder db req).status = 201 →
      ∀ dept ∈ req.departments.getD [], ∀ c ∈ dept.collaborator_ids,
        ∃ e ∈ db.employees, e.id = c) ∧
    (∀ (db : DB) (req : CreateOSReq), (createServiceOrder db req).status ≠ 201 →
      (createServiceOrder db req).status = 400 ∨ (createServiceOrder db req).status = 409) ∧
    (∀ (db : ScDB) (req : ScCreateReq), (scCreateServiceOrder db req).status = 201 →
      ∀ dept ∈ req.departments.getD [], ∃ d ∈ db.departments, d.id = dept.department_id) := by
  refine ⟨?_, ?_, scCreateServiceOrder_created⟩
  · intro db req hnd h201 dept hdept c hc
    obtain ⟨-, -, -, -, -, -, -, -, -, hdepts⟩ := createServiceOrder_created db req h201
    have hd := hdepts dept hdept
    have hcnt := hd.2.2 (by
      intro hnil
      rw [hnil] at hc
      exact List.not_mem_nil _ hc)
    exact all_ids_exist_of_filter_length db.employees dept.collaborator_ids hnd hcnt c hc
  · intro db req h
    rcases createServiceOrder_status_cases db req with h201 | h4 | h9
    · exact absurd h201 h
    · exact Or.inl h4
    · exact Or.inr h9

/-- Witness for C2 (amended): an empty departments list is rejected with
a client error, and a 201 with a listed collaborator implies that
collaborator's employee row exists. -/
theorem C2_existence_validation_amended_witness :
    ((createServiceOrder exDB ⟨"OS-9", some [2], some []⟩).status = 400 ∨
      (createServiceOrder exDB ⟨"OS-9", some [2], some []⟩).status = 409) ∧
    (createServiceOrder exDB ⟨"OS-9", some [1], some [⟨3, "08:00", "09:00", [7]⟩]⟩).status = 201 :=
  ⟨C2_existence_validation_amended.2.1 exDB ⟨"OS-9", some [2], some []⟩ (by decide), by decide⟩

/-- Counterexample to C3: in os.controller's `createServiceOrder` the
parent insert, the service-day insert and the department insert are all
issued before the collaborator existence SELECT — even on a successful
(201) request — so not every existence validation completes before the
first insert. -/
theorem C3_counterexample :
    anyInsertBefore Op.isExistenceCheck
      (createServiceOrder exDB ⟨"OS-9", some [1], some [⟨3, "08:00", "09:00", [7]⟩]⟩).trace = true ∧
    (createServiceOrder exDB ⟨"OS-9", some [1], some [⟨3, "08:00", "09:00", [7]⟩]⟩).status = 201 := by
  decide

/-- C3 (amended): serviceOrders.controller's `createServiceOrder` issues
no insert before an existence validation; in os.controller's variant the
duplicate-`os_number` check still precedes every insert and the commit
is always the last operation of the transaction, but the collaborator
existence SELECTs run inside the department loop after the parent and
department inserts (any failure rolling back, per C1). -/
theorem C3_validation_order_amended :
    (∀ (db : ScDB) (req : ScCreateReq),
      anyInsertBefore Op.isExistenceCheck (scCreateServiceOrder db req).trace = false) ∧
    (∀ (db : DB) (req : CreateOSReq),
      anyInsertBefore Op.isDupCheck (createServiceOrder db req).trace = false) ∧
    (∀ (db : DB) (req : CreateOSReq),
      ∀ op ∈ (createServiceOrder db req).trace.dropLast, op ≠ Op.commit) := by
  refine ⟨?_, ?_, ?_⟩
  · intro db req
    unfold scCreateServiceOrder
    dsimp only
    split
    · rfl
    · split
      · split <;> rfl
      · split
        · split <;> rfl
        · split
          · rfl
          · rfl
  · intro db req
    unfold createServiceOrder
    dsimp only
    split
    · rfl
    · split
      · rfl
      · split
        · rfl
        · split
          · rfl
          · split
            · rename_i s t heq
              have hops := processDepts_trace_ops _ _ _ heq
              have hnone : ∀ op ∈ t, Op.isDupCheck op = false :=
                fun op hop => deptLoopOp_not_dupCheck (hops op hop)
              have h1 : t.any Op.isDupCheck = false :=
                List.any_eq_false.mpr (fun op hop => by simp [hnone op hop])
              have h2 : anyInsertBefore Op.isDupCheck t = false :=
                anyInsertBefore_eq_false_of_no_p _ _ hnone
              simp [anyInsertBefore, Op.isInsert, Op.isDupCheck, h1, h2]
            · rename_i db3 t heq
              have hops := processDepts_trace_ops _ _ _ heq
              have hnone : ∀ op ∈ t ++ [Op.commit], Op.isDupCheck op = false := by
                intro op hop
                rcases List.mem_append.mp hop with hop | hop
                · exact deptLoopOp_not_dupCheck (hops op hop)
                · rw [List.mem_singleton.mp hop]; rfl
              have h1 : (t ++ [Op.commit]).any Op.isDupCheck = false :=
                List.any_eq_false.mpr (fun op hop => by simp [hnone op hop])
              have h2 : anyInsertBefore Op.isDupCheck (t ++ [Op.commit]) = false :=
                anyInsertBefore_eq_false_of_no_p _ _ hnone
              have hassoc : ∀ pre : List Op, pre ++ t ++ [Op.commit] = pre ++ (t ++ [Op.commit]) :=
                fun pre => List.append_assoc pre t [Op.commit]
              rw [hassoc]
              simp [anyInsertBefore, Op.isInsert, Op.isDupCheck, h1, h2]
  · intro db req
    unfold createServiceOrder
    dsimp only
    split
    · simp
    · split
      · simp
      · split
        · intro op hop
          simp only [List.dropLast] at hop
          simp only [List.mem_cons, List.not_mem_nil, or_false] at hop
          subst hop
          simp
        · split
          · intro op hop
            simp only [List.dropLast] at hop
            simp only [List.mem_cons, List.not_mem_nil, or_false] at hop
            rcases hop with rfl | rfl <;> simp
          · split
            · rename_i s t heq
              have hops := processDepts_trace_ops _ _ _ heq
              intro op hop
              have hmem := List.dropLast_sublist (l := _ ++ t) |>.subset hop
              rcases List.mem_append.mp hmem with hpre | ht
              · simp only [List.mem_cons, List.not_mem_nil, or_false] at hpre
                rcases hpre with rfl | rfl | rfl | rfl <;> simp
              · exact deptLoopOp_not_commit (hops op ht)
            · rename_i db3 t heq
              have hops := processDepts_trace_ops _ _ _ heq
              intro op hop
              rw [List.dropLast_concat] at hop
              rcases List.mem_append.mp hop with hpre | ht
              · simp only [List.mem_cons, List.not_mem_nil, or_false] at hpre
                rcases hpre with rfl | rfl | rfl | rfl <;> simp
              · exact deptLoopOp_not_commit (hops op ht)

/-- Witness for C3 (amended): a request with an unknown department id is
rejected by serviceOrders.controller before any insert, and a concrete
run of os.controller's variant issues no insert before the duplicate
check. -/
theorem C3_validation_order_amended_witness :
    anyInsertBefore Op.isExistenceCheck
      (scCreateServiceOrder ⟨[], [], [⟨3, "paint", 1⟩], 1⟩
        ⟨"OS-9", some [⟨5, 30, 2, "days"⟩]⟩).trace = false ∧
    anyInsertBefore Op.isDupCheck
      (createServiceOrder exDB ⟨"OS-9", some [1], some [⟨3, "08:00", "09:00", [7]⟩]⟩).trace = false :=
  ⟨C3_validation_order_amended.1 ⟨[], [], [⟨3, "paint", 1⟩], 1⟩ ⟨"OS-9", some [⟨5, 30, 2, "days"⟩]⟩,
    C3_validation_order_amended.2.1 exDB ⟨"OS-9", some [1], some [⟨3, "08:00", "09:00", [7]⟩]⟩⟩

/-- Counterexample to C4: POST /departments (not the login route) is
registered without `authMiddleware`, so a request carrying no
Authorization header still executes `createDepartment` and receives no
401 from the routing layer. -/
theorem C4_counterexample :
    (⟨"post", "/departments", [.controller "createDepartment"]⟩ : Route) ∈ routes ∧
    (runHandlers (fun _ => false) ⟨none⟩
      [Handler.controller "createDepartment"]).executed = ["createDepartment"] ∧
    (runHandlers (fun _ => false) ⟨none⟩
      [Handler.controller "createDepartment"]).status ≠ some 401 := by
  decide

/-- C4 (amended): `authMiddleware` itself answers 401 — executing no
later handler — when the Authorization header is missing, empty after
stripping `Bearer `, or rejected by `jwt.verify`; but no registered
route mounts it, so every route of the router executes its controller
for every request, token or not. -/
theorem C4_auth_amended :
    (∀ r ∈ routes, Handler.auth ∉ r.handlers) ∧
    (∀ (verify : String → Bool) (rest : List Handler),
      runHandlers verify ⟨none⟩ (Handler.auth :: rest) = ⟨some 401, []⟩) ∧
    (∀ (verify : String → Bool) (h : String) (rest : List Handler),
      replaceFirst h "Bearer " ≠ "" → verify (replaceFirst h "Bearer ") = false →
      runHandlers verify ⟨some h⟩ (Handler.auth :: rest) = ⟨some 401, []⟩) ∧
    (∀ (verify : String → Bool) (req : HttpReq), ∀ r ∈ routes,
      (runHandlers verify req r.handlers).status = none ∧
      (runHandlers verify req r.handlers).executed ≠ []) := by
  refine ⟨by decide, fun verify rest => rfl, ?_, ?_⟩
  · intro verify h rest hne hv
    have hbeq : (replaceFirst h "Bearer " == "") = false := beq_eq_false_iff_ne.mpr hne
    rw [runHandlers]
    dsimp only [Option.map]
    rw [if_neg (by simp [hbeq]), if_neg (by simp [hv])]
  · intro verify req r hr
    fin_cases hr <;> exact ⟨rfl, by simp [runHandlers]⟩

/-- Witness for C4 (amended): the POST /departments route carries no
auth handler, and dispatching a tokenless request through it runs the
controller without a 401. -/
theorem C4_auth_amended_witness :
    Handler.auth ∉ (⟨"post", "/departments", [.controller "createDepartment"]⟩ : Route).handlers ∧
    (runHandlers (fun _ => false) ⟨none⟩
      (⟨"post", "/departments", [.controller "createDepartment"]⟩ : Route).handlers).status = none :=
  ⟨C4_auth_amended.1 ⟨"post", "/departments", [.controller "createDepartment"]⟩ (by decide),
    (C4_auth_amended.2.2.2 (fun _ => false) ⟨none⟩
      ⟨"post", "/departments", [.controller "createDepartment"]⟩ (by decide)).1⟩

/-! ## SQL texts per controller (for the parameterization claim) -/

/-- The SQL texts os.controller's `createServiceOrder` can send: all
constant strings. -/
def fixedCreateSql : List String :=
  ["START TRANSACTION", "COMMIT", "ROLLBACK",
    "SELECT id FROM service_orders WHERE os_number = ?",
    "INSERT INTO service_orders (os_number) VALUES (?)",
    "INSERT INTO os_service_days (os_id, day_of_week) VALUES ?",
    "INSERT INTO os_departments (os_id, department_id, execution_start, execution_end) VALUES (?, ?, ?, ?)",
    "SELECT id FROM employees WHERE id IN (?)",
    "INSERT INTO os_collaborators (os_department_id, collaborator_id) VALUES ?"]

/-- The constant SQL texts `updateEmployee` can send besides its
key-dependent UPDATE statement. -/
def updateEmployeeFixedSql : List String :=
  ["START TRANSACTION", "COMMIT", "ROLLBACK",
    "DELETE FROM employee_departments WHERE employee_id = ?",
    "SELECT id FROM departments WHERE id IN (?)",
    "INSERT INTO employee_departments (employee_id, department_id) VALUES ?"]

theorem createOp_sql_mem {op : Op} (h : op.isCreateOp = true) :
    op.sql ∈ fixedCreateSql := by
  cases op <;> simp_all [Op.isCreateOp, Op.sql, fixedCreateSql]

/-- Every operation traced by os.controller's `createServiceOrder` is of
the fixed kind. -/
theorem createServiceOrder_trace_ops (db : DB) (req : CreateOSReq) :
    ∀ op ∈ (createServiceOrder db req).trace, op.isCreateOp = true := by
  unfold createServiceOrder
  dsimp only
  split
  · simp
  · split
    · simp
    · split
      · intro op hop
        simp only [List.mem_cons, List.not_mem_nil, or_false] at hop
        rcases hop with rfl | rfl <;> rfl
      · split
        · intro op hop
          simp only [List.mem_cons, List.not_mem_nil, or_false] at hop
          rcases hop with rfl | rfl | rfl <;> rfl
        · split
          · rename_i s t heq
            have hops := processDepts_trace_ops _ _ _ heq
            intro op hop
            rcases List.mem_append.mp hop with hpre | ht
            · simp only [List.mem_cons, List.not_mem_nil, or_false] at hpre
              rcases hpre with rfl | rfl | rfl | rfl <;> rfl
            · exact deptLoopOp_isCreateOp (hops op ht)
          · rename_i db3 t heq
            have hops := processDepts_trace_ops _ _ _ heq
            intro op hop
            rw [List.append_assoc] at hop
            rcases List.mem_append.mp hop with hpre | ht
            · simp only [List.mem_cons, List.not_mem_nil, or_false] at hpre
              rcases hpre with rfl | rfl | rfl | rfl <;> rfl
            · rcases List.mem_append.mp ht with ht | hc
              · exact deptLoopOp_isCreateOp (hops op ht)
              · rw [List.mem_singleton.mp hc]; rfl

/-- Mapping over the request body with password-hashing leaves the key
list unchanged. -/
theorem hashedData_keys (hash : String → String) (l : List (String × String)) :
    (l.map (fun kv => if kv.1 = "password" then (kv.1, hash kv.2) else kv)).map
        (fun kv => kv.1) =
      l.map (fun kv => kv.1) := by
  induction l with
  | nil => rfl
  | cons kv rest ih => by_cases h : kv.1 = "password" <;> simp [h, ih]

/-- Every SQL text `updateEmployee` sends is either its key-dependent
UPDATE statement or one of the fixed texts. -/
theorem updateEmployee_trace_sql (hash : String → String) (db : DB) (req : UpdateEmpReq) :
    ∀ op ∈ (updateEmployee hash db req).trace,
      Op.sql op = updateEmployeeSetSQL (req.updateData.map (fun kv => kv.1)) ∨
        Op.sql op ∈ updateEmployeeFixedSql := by
  have hkeys := hashedData_keys hash req.updateData
  unfold updateEmployee
  dsimp only
  repeat' split
  all_goals
    intro op hop
    simp only [List.append_assoc, List.cons_append, List.nil_append, List.mem_cons,
      List.mem_append, List.not_mem_nil, or_false] at hop
  all_goals
    rcases hop with rfl | rfl | rfl | rfl | rfl | rfl | rfl <;>
      simp [Op.sql, updateEmployeeFixedSql, hkeys]

/-- Counterexample to C5: two updateEmployee requests to the same
endpoint that differ only in request-supplied body content produce
different SQL texts, and the second request's body key is concatenated
verbatim into the UPDATE statement rather than passed as a parameter. -/
theorem C5_counterexample :
    (updateEmployee (fun p => p) exDB ⟨1, [("name", "a")], none⟩).trace.map Op.sql ≠
      (updateEmployee (fun p => p) exDB
        ⟨1, [("name = 'hacked', username", "a")], none⟩).trace.map Op.sql ∧
    (updateEmployee (fun p => p) exDB
        ⟨1, [("name = 'hacked', username", "a")], none⟩).trace.map Op.sql =
      ["START TRANSACTION",
        "UPDATE employees SET name = 'hacked', username = ? WHERE id = ?",
        "COMMIT"] := by
  decide

/-- C5 (amended): request-supplied data values are bound as `?`
parameters, but the SQL text is not identical across requests:
os.controller's `createServiceOrder` only ever sends the fixed SQL
texts, `getServiceOrders` keeps the search value in the parameter list
(its text depends only on whether `search` is present, not on its
value), while `updateEmployee` concatenates the request-body field
names into its UPDATE statement, all other texts it sends being
fixed. -/
theorem C5_parameterized_sql_amended :
    (∀ (db : DB) (req : CreateOSReq),
      ∀ op ∈ (createServiceOrder db req).trace, op.sql ∈ fixedCreateSql) ∧
    (∀ (p1 l1 p2 l2 : Int) (s1 s2 : String),
      (getServiceOrdersQuery p1 l1 (some s1)).1 = (getServiceOrdersQuery p2 l2 (some s2)).1) ∧
    (∀ (p l : Int) (s : String),
      SqlParam.str ("%" ++ s ++ "%") ∈ (getServiceOrdersQuery p l (some s)).2) ∧
    (∀ (hash : String → String) (db : DB) (req : UpdateEmpReq),
      ∀ op ∈ (updateEmployee hash db req).trace,
        Op.sql op = updateEmployeeSetSQL (req.updateData.map (fun kv => kv.1)) ∨
          Op.sql op ∈ updateEmployeeFixedSql) := by
  refine ⟨?_, fun _ _ _ _ _ _ => rfl, fun p l s => ?_, updateEmployee_trace_sql⟩
  · intro db req op hop
    exact createOp_sql_mem (createServiceOrder_trace_ops db req op hop)
  · simp [getServiceOrdersQuery]

/-- Witness for C5 (amended): the parent-insert SQL of a concrete
creation trace is one of the fixed texts, and a concrete updateEmployee
UPDATE text is its key-built statement. -/
theorem C5_parameterized_sql_amended_witness :
    Op.sql (Op.insertServiceOrder "OS-9") ∈ fixedCreateSql ∧
    (Op.sql (Op.updateEmployeesSet ["name"] ["a"] 1) =
        updateEmployeeSetSQL (([("name", "a")] : List (String × String)).map (fun kv => kv.1)) ∨
      Op.sql (Op.updateEmployeesSet ["name"] ["a"] 1) ∈ updateEmployeeFixedSql) :=
  ⟨C5_parameterized_sql_amended.1 exDB ⟨"OS-9", some [1], some [⟨3, "08:00", "09:00", [7]⟩]⟩
      (Op.insertServiceOrder "OS-9") (by decide),
    C5_parameterized_sql_amended.2.2.2 (fun p => p) exDB ⟨1, [("name", "a")], none⟩
      (Op.updateEmployeesSet ["name"] ["a"] 1) (by decide)⟩

/-- Counterexample to C6: PUT /service-orders/:id with an empty
departments array deletes every os_departments row of the order and
inserts none, leaving an existing service_orders row with zero
associated departments. -/
theorem C6_counterexample :
    (updateServiceOrder exDBfull ⟨1, [], some []⟩).status = 200 ∧
    ((updateServiceOrder exDBfull ⟨1, [], some []⟩).db.service_orders.any
      (fun so => so.id = 1)) = true ∧
    ((updateServiceOrder exDBfull ⟨1, [], some []⟩).db.os_departments.filter
      (fun d => d.os_id = 1)) = [] := by
  decide

/-- C6 (amended): os.controller's `createServiceOrder` rejects a missing
or empty departments list with 400, and every successfully created order
starts with at least one os_departments row; but `updateServiceOrder`
does not preserve the invariant — an empty departments array removes
every department row of the order. -/
theorem C6_at_least_one_department_amended :
    (∀ (db : DB) (req : CreateOSReq),
      (req.departments = none ∨ req.departments = some []) →
      (createServiceOrder db req).status = 400) ∧
    (∀ (db : DB) (req : CreateOSReq),
      (createServiceOrder db req).status = 201 →
      ∃ d ∈ (createServiceOrder db req).db.os_departments, d.os_id = db.next_so_id) := by
  constructor
  · intro db req hde
    unfold createServiceOrder
    dsimp only
    split
    · rfl
    · split
      · rfl
      · split
        · rfl
        · rename_i c3
          exfalso
          rcases hde with hde | hde <;> simp [hde] at c3
  · intro db req h201
    obtain ⟨-, -, -, -, -, -, -, -, hrow, -⟩ := createServiceOrder_created db req h201
    exact hrow

/-- Witness for C6 (amended): an explicit empty-departments request is
answered 400, and a successful creation has a department row. -/
theorem C6_at_least_one_department_amended_witness :
    (createServiceOrder exDB ⟨"OS-9", some [1], some []⟩).status = 400 ∧
    ∃ d ∈ (createServiceOrder exDB
      ⟨"OS-9", some [1], some [⟨3, "08:00", "09:00", []⟩]⟩).db.os_departments,
        d.os_id = exDB.next_so_id :=
  ⟨C6_at_least_one_department_amended.1 exDB ⟨"OS-9", some [1], some []⟩ (Or.inr rfl),
    C6_at_least_one_department_amended.2 exDB
      ⟨"OS-9", some [1], some [⟨3, "08:00", "09:00", []⟩]⟩ (by decide)⟩

/-- C7: DELETE /service-orders/:id on an existing order answers 200 and,
inside the one traced transaction, removes exactly the service_orders
row with that id, the os_departments rows with that os_id, the
os_collaborators rows of those departments and the os_service_days rows
with that os_id; employees, departments and employee_departments are
untouched, and (with distinct os_departments ids) every collaborator row
attached to another order's department survives. -/
theorem C7_delete_service_order (db : DB) (osId : Nat)
    (hex : ∃ so ∈ db.service_orders, so.id = osId)
    (hnd : (db.os_departments.map (fun d => d.id)).Nodup) :
    (deleteServiceOrder db (some osId)).status = 200 ∧
    (deleteServiceOrder db (some osId)).db.service_orders =
      db.service_orders.filter (fun so => so.id ≠ osId) ∧
    (deleteServiceOrder db (some osId)).db.os_departments =
      db.os_departments.filter (fun d => d.os_id ≠ osId) ∧
    (deleteServiceOrder db (some osId)).db.os_collaborators =
      db.os_collaborators.filter (fun c =>
        !(((db.os_departments.filter (fun d => d.os_id = osId)).map
            (fun d => d.id)).contains c.os_department_id)) ∧
    (deleteServiceOrder db (some osId)).db.os_service_days =
      db.os_service_days.filter (fun r => r.os_id ≠ osId) ∧
    (deleteServiceOrder db (some osId)).db.employees = db.employees ∧
    (deleteServiceOrder db (some osId)).db.departments = db.departments ∧
    (deleteServiceOrder db (some osId)).db.employee_departments = db.employee_departments ∧
    (∀ c ∈ db.os_collaborators, ∀ d ∈ db.os_departments,
      d.id = c.os_department_id → d.os_id ≠ osId →
      c ∈ (deleteServiceOrder db (some osId)).db.os_collaborators) ∧
    Op.commit ∈ (deleteServiceOrder db (some osId)).trace := by
  have hlen : ¬ (db.service_orders.filter (fun so => so.id = osId)).length = 0 := by
    obtain ⟨so, hso, rfl⟩ := hex
    intro h0
    have hm : so ∈ db.service_orders.filter (fun so' => so'.id = so.id) :=
      List.mem_filter.mpr ⟨hso, by simp⟩
    rw [List.length_eq_zero.mp h0] at hm
    exact List.not_mem_nil _ hm
  unfold deleteServiceOrder
  dsimp only
  rw [if_neg hlen]
  split
  · refine ⟨rfl, rfl, rfl, rfl, rfl, rfl, rfl, rfl, ?_, by simp⟩
    intro c hc d hd hid hos
    refine List.mem_filter.mpr ⟨hc, ?_⟩
    simp only [Bool.not_eq_true']
    rw [Bool.eq_false_iff]
    intro hcont
    have hmem : c.os_department_id ∈
        (db.os_departments.filter (fun d' => d'.os_id = osId)).map (fun d' => d'.id) := by
      simpa using hcont
    obtain ⟨d', hd', hd'id⟩ := List.mem_map.mp hmem
    have hd'mem := List.mem_of_mem_filter hd'
    have : d = d' := List.inj_on_of_nodup_map hnd hd hd'mem (by rw [hid, hd'id])
    have hos' : d'.os_id = osId := by simpa using (List.mem_filter.mp hd').2
    rw [this] at hos
    exact hos hos'
  · rename_i hnpos
    have hnil : (db.os_departments.filter (fun d => d.os_id = osId)).map (fun d => d.id) = [] := by
      have : ((db.os_departments.filter (fun d => d.os_id = osId)).map (fun d => d.id)).length = 0 := by
        omega
      exact List.length_eq_zero.mp this
    have hfid : db.os_collaborators.filter (fun c =>
        !(((db.os_departments.filter (fun d => d.os_id = osId)).map
            (fun d => d.id)).contains c.os_department_id)) = db.os_collaborators := by
      rw [hnil]
      exact List.filter_eq_self.mpr (fun a _ => rfl)
    refine ⟨rfl, rfl, rfl, hfid.symm, rfl, rfl, rfl, rfl, ?_, by simp⟩
    intro c hc d hd hid hos
    exact hc

/-- Witness for C7: deleting order 1 of the two-order fixture leaves
only order 2. -/
theorem C7_delete_service_order_witness :
    (deleteServiceOrder exDBfull (some 1)).status = 200 ∧
    (deleteServiceOrder exDBfull (some 1)).db.service_orders = [⟨2, "OS-2"⟩] :=
  ⟨(C7_delete_service_order exDBfull 1 ⟨⟨1, "OS-1"⟩, by decide, rfl⟩ (by decide)).1,
    by decide⟩

/-- C8: `deleteDepartment` never removes a department that is still
referenced: with any employee_departments or os_departments row
referencing the id, the response is 400 and the database is unchanged;
and a 204 deletion implies no row of either table references the id
afterwards (and the department row itself is gone), so no successful
deletion leaves a dangling reference. -/
theorem C8_delete_department_safe (db : DB) (deptId : Nat) :
    (((∃ r ∈ db.employee_departments, r.department_id = deptId) ∨
        ∃ r ∈ db.os_departments, r.department_id = deptId) →
      (deleteDepartment db deptId).status = 400 ∧ (deleteDepartment db deptId).db = db) ∧
    ((deleteDepartment db deptId).status = 204 →
      (∀ r ∈ (deleteDepartment db deptId).db.employee_departments, r.department_id ≠ deptId) ∧
      (∀ r ∈ (deleteDepartment db deptId).db.os_departments, r.department_id ≠ deptId) ∧
      ∀ d ∈ (deleteDepartment db deptId).db.departments, d.id ≠ deptId) := by
  unfold deleteDepartment
  dsimp only
  split
  · exact ⟨fun _ => ⟨rfl, rfl⟩, fun h204 => absurd h204 (by simp)⟩
  · rename_i hno
    constructor
    · intro href
      exfalso
      apply hno
      rcases href with ⟨r, hr, hrid⟩ | ⟨r, hr, hrid⟩
      · refine Or.inl (List.length_pos.mpr (List.ne_nil_of_mem
          (List.mem_filter.mpr ⟨hr, by simp [hrid]⟩)))
      · refine Or.inr (List.length_pos.mpr (List.ne_nil_of_mem
          (List.mem_filter.mpr ⟨hr, by simp [hrid]⟩)))
    · push_neg at hno
      have hemp : db.employee_departments.filter (fun r => r.department_id = deptId) = [] :=
        List.length_eq_zero.mp (by omega)
      have hos : db.os_departments.filter (fun r => r.department_id = deptId) = [] :=
        List.length_eq_zero.mp (by omega)
      split
      · intro h204
        exact absurd h204 (by simp)
      · intro _
        refine ⟨?_, ?_, ?_⟩
        · intro r hr
          have := List.filter_eq_nil_iff.mp hemp r hr
          simpa using this
        · intro r hr
          have := List.filter_eq_nil_iff.mp hos r hr
          simpa using this
        · intro d hd
          simpa using (List.mem_filter.mp hd).2

/-- Witness for C8: department 3 is referenced by an os_departments row
of the fixture, so its deletion is refused and the database kept. -/
theorem C8_delete_department_safe_witness :
    (deleteDepartment exDBfull 3).status = 400 ∧ (deleteDepartment exDBfull 3).db = exDBfull :=
  (C8_delete_department_safe exDBfull 3).1
    (Or.inr ⟨⟨1, 1, 3, "08:00", "09:00"⟩, by decide, rfl⟩)

/-- C9: a successful creation appends exactly the first-occurrence dedup
of the request's service days as os_service_days rows — pairwise
distinct, each between 0 and 6, and covering exactly the set of
requested days — while a missing or empty service_days list or any
out-of-range day is rejected with 400 before any statement (hence any
insert) is issued. -/
theorem C9_service_days_rows (db : DB) (req : CreateOSReq) :
    ((createServiceOrder db req).status = 201 →
      (createServiceOrder db req).db.os_service_days =
        db.os_service_days ++
          (dedupFirst (req.service_days.getD [])).map (fun d => ⟨db.next_so_id, d⟩) ∧
      (dedupFirst (req.service_days.getD [])).Nodup ∧
      (∀ d : Int, d ∈ dedupFirst (req.service_days.getD []) ↔ d ∈ req.service_days.getD []) ∧
      (∀ d ∈ dedupFirst (req.service_days.getD []), 0 ≤ d ∧ d ≤ 6)) ∧
    ((req.service_days = none ∨ req.service_days = some [] ∨
        ∃ d ∈ req.service_days.getD [], (d < 0 ∨ d > 6)) →
      (createServiceOrder db req).status = 400 ∧ (createServiceOrder db req).db = db ∧
      (createServiceOrder db req).trace = []) := by
  constructor
  · intro h201
    obtain ⟨-, -, -, hrange, -, -, -, hdays, -, -⟩ := createServiceOrder_created db req h201
    refine ⟨hdays, dedupFirst_nodup _, mem_dedupFirst _, ?_⟩
    intro d hd
    exact hrange d ((mem_dedupFirst _ d).mp hd)
  · intro hbad
    unfold createServiceOrder
    dsimp only
    split
    · exact ⟨rfl, rfl, rfl⟩
    · split
      · exact ⟨rfl, rfl, rfl⟩
      · rename_i c1 c2
        exfalso
        rcases hbad with hbad | hbad | hbad
        · simp [hbad] at c1
        · simp [hbad] at c1
        · obtain ⟨d, hd, hdval⟩ := hbad
          apply c2
          rw [List.any_eq_true]
          refine ⟨d, hd, ?_⟩
          rcases hdval with h | h <;> simp [h]

/-- Witness for C9: a creation with requested days `[1, 1, 3]` stores
exactly the rows for 1 and 3, and a request with day 7 is answered 400
with an empty trace. -/
theorem C9_service_days_rows_witness :
    (createServiceOrder exDB
        ⟨"OS-9", some [1, 1, 3], some [⟨3, "08:00", "09:00", []⟩]⟩).db.os_service_days =
      exDB.os_service_days ++ (dedupFirst [1, 1, 3]).map (fun d => ⟨exDB.next_so_id, d⟩) ∧
    (createServiceOrder exDB ⟨"OS-9", some [7], some []⟩).status = 400 :=
  ⟨((C9_service_days_rows exDB
      ⟨"OS-9", some [1, 1, 3], some [⟨3, "08:00", "09:00", []⟩]⟩).1 (by decide)).1,
    ((C9_service_days_rows exDB ⟨"OS-9", some [7], some []⟩).2
      (Or.inr (Or.inr ⟨7, by decide, Or.inr (by decide)⟩))).1⟩

/-- Counterexample to C10: a request department with the invalid
execution time "99:99" is answered 409 — not 400 — when the duplicate
`os_number` check fails first. -/
theorem C10_counterexample :
    isValidTime "99:99" = false ∧
    (createServiceOrder exDBdup
      ⟨"OS-1", some [1], some [⟨3, "99:99", "08:00", []⟩]⟩).status = 409 := by
  decide

/-- C10 (amended): `isValidTime` accepts a string exactly when it is
`HH:MM` with hour 00–23 and minute 00–59 and nothing else; a request
department whose execution_start or execution_end fails the check is
never created — the response is a client error (400, or 409 when the
duplicate-os_number check fails first) and the database is unchanged. -/
theorem C10_time_validation_amended :
    (∀ s : String, isValidTime s = true ↔ timeSpec s) ∧
    (∀ (db : DB) (req : CreateOSReq) (dept : DeptReq), dept ∈ req.departments.getD [] →
      (isValidTime dept.execution_start = false ∨ isValidTime dept.execution_end = false) →
      (createServiceOrder db req).status ≠ 201 ∧
      (createServiceOrder db req).db = db ∧
      ((createServiceOrder db req).status = 400 ∨ (createServiceOrder db req).status = 409)) := by
  refine ⟨isValidTime_iff_timeSpec, ?_⟩
  intro db req dept hdept hbad
  have hne : (createServiceOrder db req).status ≠ 201 := by
    intro h201
    obtain ⟨-, -, -, -, -, -, -, -, -, hdepts⟩ := createServiceOrder_created db req h201
    have hd := hdepts dept hdept
    rcases hbad with hbad | hbad
    · rw [hd.1] at hbad; cases hbad
    · rw [hd.2.1] at hbad; cases hbad
  refine ⟨hne, ?_, ?_⟩
  · rcases createServiceOrder_not_created db req with h201 | hok
    · exact absurd h201 hne
    · exact hok.1
  · rcases createServiceOrder_status_cases db req with h201 | h4 | h9
    · exact absurd h201 hne
    · exact Or.inl h4
    · exact Or.inr h9

/-- Witness for C10 (amended): a concrete request with execution_start
"99:99" is not created and leaves the database unchanged. -/
theorem C10_time_validation_amended_witness :
    (createServiceOrder exDB ⟨"OS-9", some [1], some [⟨3, "99:99", "08:00", []⟩]⟩).status ≠ 201 ∧
    (createServiceOrder exDB ⟨"OS-9", some [1], some [⟨3, "99:99", "08:00", []⟩]⟩).db = exDB :=
  ⟨(C10_time_validation_amended.2 exDB ⟨"OS-9", some [1], some [⟨3, "99:99", "08:00", []⟩]⟩
      ⟨3, "99:99", "08:00", []⟩ (by decide) (Or.inl (by decide))).1,
    (C10_time_validation_amended.2 exDB ⟨"OS-9", some [1], some [⟨3, "99:99", "08:00", []⟩]⟩
      ⟨3, "99:99", "08:00", []⟩ (by decide) (Or.inl (by decide))).2.1⟩

end Prod2
